import Mathlib

/-!
# Verification of the key-value-store record upload path (`putRecord`)

Shallow embedding of `putRecord` from the key-value-stores module of the
apify client (src/unnamed/part_000, lines 260-305), together with the
constants of that module.  The HTTP transport and the gzip compressor are
collaborators: they are passed in as function parameters, and `putRecord`
returns, next to its result, the ordered list of outbound requests it
issued, so that theorems can speak about the network trace of a call.

JavaScript values that can appear in the loosely-typed options bag (and in
parsed JSON responses) are modelled by `JsVal`, with `undef` standing for
JavaScript's `undefined` (an absent field) and `null` for `null`.
-/

namespace Apify

/-- A JavaScript value, as found in the options bag or a parsed JSON
response. `undef` is JavaScript `undefined` (absent field). -/
inductive JsVal where
  | undef
  | null
  | bool (b : Bool)
  | num (n : Int)
  | str (s : String)
  | buf (bytes : List Nat)
  | obj (fields : List (String × JsVal))

/-- An outbound HTTP request descriptor, the argument the code hands to the
`requestPromise` transport.  The `url` is a `JsVal` because on the
signed-url path the code copies `response.data.signedUrl` into it verbatim,
which in JavaScript may be any value (including `undefined`). -/
structure Request where
  url : JsVal
  method : String
  body : Option (List Nat)
  json : Bool
  headers : List (String × String)

/-- Failure modes of a `putRecord` call: parameter validation failure
(`ApifyError` of the invalid-parameter type, carrying the parameter name),
a transport-level failure propagated from `requestPromise`, or a JavaScript
`TypeError` (reading a property of `undefined`/`null`). -/
inductive PutError where
  | invalidParameter (name : String)
  | transport (message : String)
  | typeError
deriving DecidableEq

/-- src/unnamed/part_000 line 63. -/
def BASE_PATH : String := "/v2/key-value-stores"

/-- src/unnamed/part_000 line 64: `1024 * 256`. -/
def SIGNED_URL_UPLOAD_MIN_BYTESIZE : Nat := 1024 * 256

/-- The parameter shapes `putRecord` checks: `'String'` and
`'Buffer | String'`. -/
inductive ParamType where
  | string
  | bufferOrString

/-- Modelled from the spec: `checkParamOrThrow` lives in the `./utils`
module, which is not part of the sources here.  Per the spec, a required
field that is "missing, empty, or wrong shape" raises an
`InvalidParameter` error synchronously; `'String'` therefore accepts
exactly the non-empty strings, and `'Buffer | String'` a non-empty string
or non-empty byte buffer. -/
def checkParamOrThrow (value : JsVal) (name : String) (type : ParamType) :
    Except PutError Unit :=
  match type, value with
  | ParamType.string, JsVal.str s =>
      if s.isEmpty then Except.error (PutError.invalidParameter name)
      else Except.ok ()
  | ParamType.string, _ => Except.error (PutError.invalidParameter name)
  | ParamType.bufferOrString, JsVal.str s =>
      if s.isEmpty then Except.error (PutError.invalidParameter name)
      else Except.ok ()
  | ParamType.bufferOrString, JsVal.buf b =>
      if b.isEmpty then Except.error (PutError.invalidParameter name)
      else Except.ok ()
  | ParamType.bufferOrString, _ => Except.error (PutError.invalidParameter name)

/-- The default applied while destructuring the options bag
(src line 266): `options.contentType === undefined ? 'text/plain;
charset=utf-8' : options.contentType`. -/
def effectiveContentType : JsVal → JsVal
  | JsVal.undef => JsVal.str "text/plain; charset=utf-8"
  | v => v

/-- JavaScript member access `v.field`: throws a `TypeError` on
`undefined` and `null`, looks the field up on an object (yielding
`undefined` when absent), and yields `undefined` on other primitives. -/
def jsAccess (v : JsVal) (field : String) : Except PutError JsVal :=
  match v with
  | JsVal.undef => Except.error PutError.typeError
  | JsVal.null => Except.error PutError.typeError
  | JsVal.obj fields =>
      Except.ok (match fields.lookup field with
        | some x => x
        | none => JsVal.undef)
  | _ => Except.ok JsVal.undef

/-- The string content of a `JsVal` known to be a string. -/
def jsStr : JsVal → String
  | JsVal.str s => s
  | _ => ""

/-- The byte sequence handed to gzip: a buffer's bytes, or a string's
UTF-8 encoding (Node's default encoding when gzipping a string). -/
def bodyBytes : JsVal → List Nat
  | JsVal.buf b => b
  | JsVal.str s => s.toUTF8.toList.map UInt8.toNat
  | _ => []

/-- The loosely-typed options bag accepted by `putRecord`
(src lines 261-266); an absent field is `undef`. -/
structure PutRecordOptions where
  baseUrl : JsVal := JsVal.undef
  storeId : JsVal := JsVal.undef
  key : JsVal := JsVal.undef
  body : JsVal := JsVal.undef
  contentType : JsVal := JsVal.undef

/-- The five `checkParamOrThrow` calls of `putRecord`, in source order
(src lines 268-273); the first failing check's error is the call's
error. -/
def validateParams (o : PutRecordOptions) (contentType : JsVal) :
    Except PutError Unit :=
  (checkParamOrThrow o.baseUrl "baseUrl" ParamType.string).bind fun _ =>
  (checkParamOrThrow o.storeId "storeId" ParamType.string).bind fun _ =>
  (checkParamOrThrow o.key "key" ParamType.string).bind fun _ =>
  (checkParamOrThrow contentType "contentType" ParamType.string).bind fun _ =>
  checkParamOrThrow o.body "body" ParamType.bufferOrString

/-- The direct `PUT` request descriptor `requestOpts`
(src lines 276-285). -/
def recordPutRequest (baseUrl storeId key contentType : String)
    (gzipedBody : List Nat) : Request :=
  { url := JsVal.str (baseUrl ++ BASE_PATH ++ "/" ++ storeId ++ "/records/" ++ key)
    method := "PUT"
    body := some gzipedBody
    json := false
    headers := [("Content-Type", contentType), ("Content-Encoding", "gzip")] }

/-- The `GET .../direct-upload-url` request descriptor
(src lines 291-297). -/
def directUploadUrlRequest (baseUrl storeId key contentType : String) :
    Request :=
  { url := JsVal.str (baseUrl ++ BASE_PATH ++ "/" ++ storeId ++ "/records/" ++ key
      ++ "/direct-upload-url")
    method := "GET"
    body := none
    json := true
    headers := [("Content-Type", contentType)] }

/-- Lift a transport outcome into the call's result type. -/
def liftTransport : Except String JsVal → Except PutError JsVal
  | Except.ok v => Except.ok v
  | Except.error msg => Except.error (PutError.transport msg)

/-- `putRecord` (src lines 260-305).  `gz` is the gzip collaborator
(`gzipPromise` lives in the missing `./utils` module, so compression is
abstracted as an arbitrary bytes-to-bytes function), `tr` the
`requestPromise` transport.  Returns the call's result paired with the
ordered list of requests issued:

1. destructure the options, defaulting `contentType` when `undefined`;
2. run the five parameter checks; a failure returns before compression
   and before any request;
3. gzip the body and build `requestOpts` targeting the record endpoint;
4. if the gzipped body is shorter than `SIGNED_URL_UPLOAD_MIN_BYTESIZE`,
   issue `requestOpts` and return its outcome;
5. otherwise issue the `direct-upload-url` `GET`; on transport failure
   that failure is the result; on success read
   `response.data.signedUrl` (JavaScript member access, so a missing
   `data` throws a `TypeError`) and issue `requestOpts` with only its
   `url` replaced by the obtained value. -/
def putRecord (gz : List Nat → List Nat)
    (tr : Request → Except String JsVal) (o : PutRecordOptions) :
    Except PutError JsVal × List Request :=
  let contentType := effectiveContentType o.contentType
  match validateParams o contentType with
  | Except.error e => (Except.error e, [])
  | Except.ok _ =>
    let gzipedBody := gz (bodyBytes o.body)
    let requestOpts := recordPutRequest (jsStr o.baseUrl) (jsStr o.storeId)
      (jsStr o.key) (jsStr contentType) gzipedBody
    if gzipedBody.length < SIGNED_URL_UPLOAD_MIN_BYTESIZE then
      (liftTransport (tr requestOpts), [requestOpts])
    else
      let getReq := directUploadUrlRequest (jsStr o.baseUrl) (jsStr o.storeId)
        (jsStr o.key) (jsStr contentType)
      match tr getReq with
      | Except.error msg => (Except.error (PutError.transport msg), [getReq])
      | Except.ok response =>
        match jsAccess response "data" with
        | Except.error e => (Except.error e, [getReq])
        | Except.ok dataField =>
          match jsAccess dataField "signedUrl" with
          | Except.error e => (Except.error e, [getReq])
          | Except.ok signedUrl =>
            let s3RequestOpts := { requestOpts with url := signedUrl }
            (liftTransport (tr s3RequestOpts), [getReq, s3RequestOpts])

/-- `true` exactly when a call's result is a validation
(`InvalidParameter`) failure. -/
def isInvalidParameterError : Except PutError JsVal → Bool
  | Except.error (PutError.invalidParameter _) => true
  | _ => false

/-- A parameter check either passes or fails with the invalid-parameter
error carrying that parameter's name. -/
theorem checkParamOrThrow_cases (v : JsVal) (n : String) (t : ParamType) :
    checkParamOrThrow v n t = Except.ok () ∨
    checkParamOrThrow v n t = Except.error (PutError.invalidParameter n) := by
  cases t <;> cases v <;> simp only [checkParamOrThrow] <;>
    first
    | (split <;> simp)
    | simp

/-- The validation sequence either passes or fails with an
invalid-parameter error. -/
theorem validateParams_cases (o : PutRecordOptions) (ct : JsVal) :
    validateParams o ct = Except.ok () ∨
    ∃ name, validateParams o ct = Except.error (PutError.invalidParameter name) := by
  unfold validateParams
  rcases checkParamOrThrow_cases o.baseUrl "baseUrl" ParamType.string with h1 | h1 <;> rw [h1]
  case inr => exact Or.inr ⟨"baseUrl", rfl⟩
  rcases checkParamOrThrow_cases o.storeId "storeId" ParamType.string with h2 | h2 <;> rw [h2]
  case inr => exact Or.inr ⟨"storeId", rfl⟩
  rcases checkParamOrThrow_cases o.key "key" ParamType.string with h3 | h3 <;> rw [h3]
  case inr => exact Or.inr ⟨"key", rfl⟩
  rcases checkParamOrThrow_cases ct "contentType" ParamType.string with h4 | h4 <;> rw [h4]
  case inr => exact Or.inr ⟨"contentType", rfl⟩
  rcases checkParamOrThrow_cases o.body "body" ParamType.bufferOrString with h5 | h5 <;> rw [h5]
  case inr => exact Or.inr ⟨"body", rfl⟩
  exact Or.inl rfl

/-- When validation passes, each of the five checks passed. -/
theorem validateParams_ok_checks (o : PutRecordOptions) (ct : JsVal)
    (h : validateParams o ct = Except.ok ()) :
    checkParamOrThrow o.baseUrl "baseUrl" ParamType.string = Except.ok () ∧
    checkParamOrThrow o.storeId "storeId" ParamType.string = Except.ok () ∧
    checkParamOrThrow o.key "key" ParamType.string = Except.ok () ∧
    checkParamOrThrow ct "contentType" ParamType.string = Except.ok () ∧
    checkParamOrThrow o.body "body" ParamType.bufferOrString = Except.ok () := by
  unfold validateParams at h
  cases h1 : checkParamOrThrow o.baseUrl "baseUrl" ParamType.string <;> rw [h1] at h
  case error e => exact absurd h (by simp [Except.bind])
  case ok u =>
  cases u
  cases h2 : checkParamOrThrow o.storeId "storeId" ParamType.string <;> rw [h2] at h
  case error e => exact absurd h (by simp [Except.bind])
  case ok u =>
  cases u
  cases h3 : checkParamOrThrow o.key "key" ParamType.string <;> rw [h3] at h
  case error e => exact absurd h (by simp [Except.bind])
  case ok u =>
  cases u
  cases h4 : checkParamOrThrow ct "contentType" ParamType.string <;> rw [h4] at h
  case error e => exact absurd h (by simp [Except.bind])
  case ok u =>
  cases u
  cases h5 : checkParamOrThrow o.body "body" ParamType.bufferOrString <;> rw [h5] at h
  case error e => exact absurd h (by simp [Except.bind])
  case ok u =>
  cases u
  exact ⟨rfl, rfl, rfl, rfl, rfl⟩

/-! ## Concrete instances used by witnesses and counterexamples -/

/-- A fully valid options bag with a small body and no explicit content
type (the scenario `putRecord("store1", "foo", "bar")`, body as bytes). -/
def cOptsSmall : PutRecordOptions :=
  { baseUrl := JsVal.str "https://api.example"
    storeId := JsVal.str "store1"
    key := JsVal.str "foo"
    body := JsVal.buf [98, 97, 114] }

/-- A fully valid options bag whose body will be compressed to threshold
size by `cGzBig`. -/
def cOptsBig : PutRecordOptions :=
  { baseUrl := JsVal.str "https://api.example"
    storeId := JsVal.str "store1"
    key := JsVal.str "big"
    body := JsVal.buf [1, 2, 3] }

/-- A compressor that leaves the bytes unchanged (small output). -/
def cGzId : List Nat → List Nat := fun l => l

/-- A compressor whose output is exactly `SIGNED_URL_UPLOAD_MIN_BYTESIZE`
bytes long. -/
def cGzBig : List Nat → List Nat := fun _ => List.replicate (1024 * 256) 0

/-- A well-formed signed-url envelope `\x7b data: \x7b signedUrl: ... \x7d \x7d`. -/
def goodSignedUrlResponse : JsVal :=
  JsVal.obj [("data", JsVal.obj [("signedUrl", JsVal.str "https://s3.example/upload")])]

/-- A transport that answers every `GET` with the well-formed signed-url
envelope and every other request with an empty success. -/
def cTrGood : Request → Except String JsVal := fun r =>
  if r.method = "GET" then Except.ok goodSignedUrlResponse else Except.ok JsVal.null

/-- A transport that answers every `GET` with an envelope whose `data`
object has no `signedUrl` field. -/
def cTrNoSigned : Request → Except String JsVal := fun r =>
  if r.method = "GET" then Except.ok (JsVal.obj [("data", JsVal.obj [])])
  else Except.ok JsVal.null

/-- A transport that answers every `GET` with an envelope that has no
`data` field at all. -/
def cTrNoData : Request → Except String JsVal := fun r =>
  if r.method = "GET" then Except.ok (JsVal.obj [("ok", JsVal.bool true)])
  else Except.ok JsVal.null

/-- A transport on which every request fails. -/
def cTrFail : Request → Except String JsVal := fun _ =>
  Except.error "network error"

/-- A transport that answers every request with an empty success. -/
def cTrNull : Request → Except String JsVal := fun _ => Except.ok JsVal.null

/-! ## Claims -/

/-- C8: every invocation of `putRecord` performs at most two outbound
network calls and never retries: the method trace of any execution is one
of `[]` (validation failure), `["PUT"]` (small-body path), `["GET"]`
(large-body path whose signed-url request failed or whose envelope could
not be read), or `["GET", "PUT"]` (large-body path); no trace has a third
request or a repetition. -/
theorem putRecord_at_most_two_calls (gz : List Nat → List Nat)
    (tr : Request → Except String JsVal) (o : PutRecordOptions) :
    (putRecord gz tr o).2.map Request.method = [] ∨
    (putRecord gz tr o).2.map Request.method = ["PUT"] ∨
    (putRecord gz tr o).2.map Request.method = ["GET"] ∨
    (putRecord gz tr o).2.map Request.method = ["GET", "PUT"] := by
  rcases validateParams_cases o (effectiveContentType o.contentType) with hok | ⟨name, herr⟩
  · by_cases hsmall :
      (gz (bodyBytes o.body)).length < SIGNED_URL_UPLOAD_MIN_BYTESIZE
    · simp only [putRecord, hok, if_pos hsmall]
      simp [recordPutRequest]
    · simp only [putRecord, hok, if_neg hsmall]
      cases htr : tr (directUploadUrlRequest (jsStr o.baseUrl) (jsStr o.storeId)
          (jsStr o.key) (jsStr (effectiveContentType o.contentType))) with
      | error msg => simp [htr, directUploadUrlRequest]
      | ok resp =>
        simp only [htr]
        cases hd : jsAccess resp "data" with
        | error e => simp [hd, directUploadUrlRequest]
        | ok dataField =>
          simp only [hd]
          cases hs : jsAccess dataField "signedUrl" with
          | error e => simp [hs, directUploadUrlRequest]
          | ok signedUrl => simp [hs, directUploadUrlRequest, recordPutRequest]
  · simp [putRecord, herr]

/-- C9: `putRecord` also requires `baseUrl` and checks it first, before
any other check, before compression (the result does not depend on `gz`)
and before any network call (the request trace is empty): whenever
`baseUrl` is not a string, the call fails with the invalid-parameter
error for `baseUrl`. -/
theorem putRecord_requires_baseUrl (gz : List Nat → List Nat)
    (tr : Request → Except String JsVal) (o : PutRecordOptions)
    (h : ∀ s, o.baseUrl ≠ JsVal.str s) :
    putRecord gz tr o = (Except.error (PutError.invalidParameter "baseUrl"), []) := by
  have hchk : checkParamOrThrow o.baseUrl "baseUrl" ParamType.string =
      Except.error (PutError.invalidParameter "baseUrl") := by
    cases hb : o.baseUrl
    case str s => exact absurd hb (h s)
    all_goals rfl
  have hval : validateParams o (effectiveContentType o.contentType) =
      Except.error (PutError.invalidParameter "baseUrl") := by
    unfold validateParams
    rw [hchk]
    rfl
  simp [putRecord, hval]

/-- Witness for C9: a call whose options bag has no `baseUrl` at all
fails with the invalid-parameter error for `baseUrl` and issues no
request. -/
theorem putRecord_requires_baseUrl_witness :
    (∀ s, (PutRecordOptions.mk JsVal.undef (JsVal.str "store1") (JsVal.str "foo")
        (JsVal.buf [98]) JsVal.undef).baseUrl ≠ JsVal.str s) ∧
    putRecord cGzId cTrNull (PutRecordOptions.mk JsVal.undef (JsVal.str "store1")
        (JsVal.str "foo") (JsVal.buf [98]) JsVal.undef) =
      (Except.error (PutError.invalidParameter "baseUrl"), []) :=
  ⟨fun _ h => JsVal.noConfusion h,
   putRecord_requires_baseUrl cGzId cTrNull _ (fun _ h => JsVal.noConfusion h)⟩

/-- C4: a call whose `storeId`, `key`, or `body` is missing or empty
fails with an invalid-parameter error, for every compressor and every
transport (so before compression and with zero outbound calls). -/
theorem putRecord_invalid_params_no_io (gz : List Nat → List Nat)
    (tr : Request → Except String JsVal) (o : PutRecordOptions)
    (h : o.storeId = JsVal.undef ∨ o.storeId = JsVal.str "" ∨
         o.key = JsVal.undef ∨ o.key = JsVal.str "" ∨
         o.body = JsVal.undef ∨ o.body = JsVal.str "" ∨ o.body = JsVal.buf []) :
    isInvalidParameterError (putRecord gz tr o).1 = true ∧
    (putRecord gz tr o).2 = [] := by
  rcases validateParams_cases o (effectiveContentType o.contentType) with hok | ⟨name, herr⟩
  · exfalso
    obtain ⟨-, h2, h3, -, h5⟩ := validateParams_ok_checks o _ hok
    rcases h with h | h | h | h | h | h | h
    · rw [h] at h2; exact Except.noConfusion h2
    · rw [h] at h2; exact Except.noConfusion h2
    · rw [h] at h3; exact Except.noConfusion h3
    · rw [h] at h3; exact Except.noConfusion h3
    · rw [h] at h5; exact Except.noConfusion h5
    · rw [h] at h5; exact Except.noConfusion h5
    · rw [h] at h5; exact Except.noConfusion h5
  · simp [putRecord, herr, isInvalidParameterError]

/-- Witness for C4: an options bag with an empty `storeId` fails with an
invalid-parameter error and issues no request. -/
theorem putRecord_invalid_params_no_io_witness :
    ((PutRecordOptions.mk (JsVal.str "https://api.example") (JsVal.str "")
        (JsVal.str "foo") (JsVal.buf [98]) JsVal.undef).storeId = JsVal.undef ∨
     (PutRecordOptions.mk (JsVal.str "https://api.example") (JsVal.str "")
        (JsVal.str "foo") (JsVal.buf [98]) JsVal.undef).storeId = JsVal.str "" ∨
     (PutRecordOptions.mk (JsVal.str "https://api.example") (JsVal.str "")
        (JsVal.str "foo") (JsVal.buf [98]) JsVal.undef).key = JsVal.undef ∨
     (PutRecordOptions.mk (JsVal.str "https://api.example") (JsVal.str "")
        (JsVal.str "foo") (JsVal.buf [98]) JsVal.undef).key = JsVal.str "" ∨
     (PutRecordOptions.mk (JsVal.str "https://api.example") (JsVal.str "")
        (JsVal.str "foo") (JsVal.buf [98]) JsVal.undef).body = JsVal.undef ∨
     (PutRecordOptions.mk (JsVal.str "https://api.example") (JsVal.str "")
        (JsVal.str "foo") (JsVal.buf [98]) JsVal.undef).body = JsVal.str "" ∨
     (PutRecordOptions.mk (JsVal.str "https://api.example") (JsVal.str "")
        (JsVal.str "foo") (JsVal.buf [98]) JsVal.undef).body = JsVal.buf []) ∧
    isInvalidParameterError (putRecord cGzId cTrNull
      (PutRecordOptions.mk (JsVal.str "https://api.example") (JsVal.str "")
        (JsVal.str "foo") (JsVal.buf [98]) JsVal.undef)).1 = true ∧
    (putRecord cGzId cTrNull
      (PutRecordOptions.mk (JsVal.str "https://api.example") (JsVal.str "")
        (JsVal.str "foo") (JsVal.buf [98]) JsVal.undef)).2 = [] :=
  ⟨Or.inr (Or.inl rfl),
   putRecord_invalid_params_no_io cGzId cTrNull _ (Or.inr (Or.inl rfl))⟩

/-- C1: for every valid call on a transport whose signed-url endpoint
answers with a well-formed envelope, `putRecord` issues exactly one `PUT`
when the gzipped body is strictly shorter than 262144 bytes and exactly
one `GET` followed by one `PUT` otherwise; the branch condition is
literally a comparison of the compressed length — the raw body (and the
compressor `gz`) are otherwise arbitrary, so the decision depends only on
the compressed length. -/
theorem putRecord_trace_by_compressed_size (gz : List Nat → List Nat)
    (tr : Request → Except String JsVal) (o : PutRecordOptions) (u : String)
    (hvalid : validateParams o (effectiveContentType o.contentType) = Except.ok ())
    (hresp : tr (directUploadUrlRequest (jsStr o.baseUrl) (jsStr o.storeId)
        (jsStr o.key) (jsStr (effectiveContentType o.contentType))) =
      Except.ok (JsVal.obj [("data", JsVal.obj [("signedUrl", JsVal.str u)])])) :
    (putRecord gz tr o).2.map Request.method =
      (if (gz (bodyBytes o.body)).length < SIGNED_URL_UPLOAD_MIN_BYTESIZE
       then ["PUT"] else ["GET", "PUT"]) := by
  by_cases hsmall :
    (gz (bodyBytes o.body)).length < SIGNED_URL_UPLOAD_MIN_BYTESIZE
  · rw [if_pos hsmall]
    simp only [putRecord, hvalid, if_pos hsmall]
    simp [recordPutRequest]
  · rw [if_neg hsmall]
    simp only [putRecord, hvalid, if_neg hsmall]
    simp only [hresp]
    have hdata : jsAccess (JsVal.obj [("data", JsVal.obj [("signedUrl", JsVal.str u)])])
        "data" = Except.ok (JsVal.obj [("signedUrl", JsVal.str u)]) := rfl
    have hsig : jsAccess (JsVal.obj [("signedUrl", JsVal.str u)]) "signedUrl" =
        Except.ok (JsVal.str u) := rfl
    simp only [hdata, hsig]
    simp [directUploadUrlRequest, recordPutRequest]

/-- Witness for C1: the scenario of the spec — a 3-byte body left small by
the compressor — issues exactly one `PUT`. -/
theorem putRecord_trace_by_compressed_size_witness :
    validateParams cOptsSmall (effectiveContentType cOptsSmall.contentType) =
      Except.ok () ∧
    cTrGood (directUploadUrlRequest (jsStr cOptsSmall.baseUrl) (jsStr cOptsSmall.storeId)
        (jsStr cOptsSmall.key) (jsStr (effectiveContentType cOptsSmall.contentType))) =
      Except.ok (JsVal.obj [("data",
        JsVal.obj [("signedUrl", JsVal.str "https://s3.example/upload")])]) ∧
    (putRecord cGzId cTrGood cOptsSmall).2.map Request.method =
      (if (cGzId (bodyBytes cOptsSmall.body)).length < SIGNED_URL_UPLOAD_MIN_BYTESIZE
       then ["PUT"] else ["GET", "PUT"]) :=
  ⟨rfl, rfl,
   putRecord_trace_by_compressed_size cGzId cTrGood cOptsSmall
     "https://s3.example/upload" rfl rfl⟩

/-- C2: the threshold constant is exactly 262144 bytes, and the boundary
is exclusive on the small side: a compressed body of exactly 262144 bytes
takes the large-body path, i.e. the first request issued is the `GET` for
the signed upload url. -/
theorem putRecord_threshold_boundary (gz : List Nat → List Nat)
    (tr : Request → Except String JsVal) (o : PutRecordOptions)
    (hvalid : validateParams o (effectiveContentType o.contentType) = Except.ok ())
    (hlen : (gz (bodyBytes o.body)).length = 262144) :
    SIGNED_URL_UPLOAD_MIN_BYTESIZE = 262144 ∧
    ((putRecord gz tr o).2.map Request.method).head? = some "GET" := by
  have hbig : ¬ (gz (bodyBytes o.body)).length < SIGNED_URL_UPLOAD_MIN_BYTESIZE := by
    rw [hlen]
    decide
  refine ⟨rfl, ?_⟩
  simp only [putRecord, hvalid, if_neg hbig]
  cases htr : tr (directUploadUrlRequest (jsStr o.baseUrl) (jsStr o.storeId)
      (jsStr o.key) (jsStr (effectiveContentType o.contentType))) with
  | error msg => simp [htr, directUploadUrlRequest]
  | ok resp =>
    simp only [htr]
    cases hd : jsAccess resp "data" with
    | error e => simp [hd, directUploadUrlRequest]
    | ok dataField =>
      simp only [hd]
      cases hs : jsAccess dataField "signedUrl" with
      | error e => simp [hs, directUploadUrlRequest]
      | ok signedUrl => simp [hs, directUploadUrlRequest]

/-- Witness for C2: a compressor returning exactly 262144 bytes sends the
call down the large-body path. -/
theorem putRecord_threshold_boundary_witness :
    validateParams cOptsBig (effectiveContentType cOptsBig.contentType) =
      Except.ok () ∧
    (cGzBig (bodyBytes cOptsBig.body)).length = 262144 ∧
    (SIGNED_URL_UPLOAD_MIN_BYTESIZE = 262144 ∧
     ((putRecord cGzBig cTrGood cOptsBig).2.map Request.method).head? = some "GET") :=
  ⟨rfl,
   by rw [show cGzBig (bodyBytes cOptsBig.body) = List.replicate (1024 * 256) 0 from rfl,
        List.length_replicate],
   putRecord_threshold_boundary cGzBig cTrGood cOptsBig rfl
     (by rw [show cGzBig (bodyBytes cOptsBig.body) = List.replicate (1024 * 256) 0 from rfl,
          List.length_replicate])⟩

/-- C5: when `contentType` is omitted (absent from the options bag), every
request issued by `putRecord` — in particular the `PUT` — carries the
header `Content-Type: text/plain; charset=utf-8`. -/
theorem putRecord_default_content_type_header (gz : List Nat → List Nat)
    (tr : Request → Except String JsVal) (o : PutRecordOptions)
    (hct : o.contentType = JsVal.undef)
    (hvalid : validateParams o (effectiveContentType o.contentType) = Except.ok ()) :
    ((putRecord gz tr o).2.all fun r =>
      r.headers.contains ("Content-Type", "text/plain; charset=utf-8")) = true := by
  have hstr : jsStr (effectiveContentType o.contentType) =
      "text/plain; charset=utf-8" := by
    rw [hct]
    rfl
  by_cases hsmall :
    (gz (bodyBytes o.body)).length < SIGNED_URL_UPLOAD_MIN_BYTESIZE
  · simp only [putRecord, hvalid, if_pos hsmall]
    simp [recordPutRequest, hstr]
  · simp only [putRecord, hvalid, if_neg hsmall]
    cases htr : tr (directUploadUrlRequest (jsStr o.baseUrl) (jsStr o.storeId)
        (jsStr o.key) (jsStr (effectiveContentType o.contentType))) with
    | error msg => simp [htr, directUploadUrlRequest, hstr]
    | ok resp =>
      simp only [htr]
      cases hd : jsAccess resp "data" with
      | error e => simp [hd, directUploadUrlRequest, hstr]
      | ok dataField =>
        simp only [hd]
        cases hs : jsAccess dataField "signedUrl" with
        | error e => simp [hs, directUploadUrlRequest, hstr]
        | ok signedUrl => simp [hs, directUploadUrlRequest, recordPutRequest, hstr]

/-- Witness for C5: the small-path scenario with omitted `contentType`
carries the default header on its one `PUT`. -/
theorem putRecord_default_content_type_header_witness :
    cOptsSmall.contentType = JsVal.undef ∧
    validateParams cOptsSmall (effectiveContentType cOptsSmall.contentType) =
      Except.ok () ∧
    ((putRecord cGzId cTrNull cOptsSmall).2.all fun r =>
      r.headers.contains ("Content-Type", "text/plain; charset=utf-8")) = true :=
  ⟨rfl, rfl,
   putRecord_default_content_type_header cGzId cTrNull cOptsSmall rfl rfl⟩

/-- C6: on the large-body path, when the signed-url `GET` itself fails at
the transport level, the call fails with that transport error and the
trace contains only the `GET` — the `PUT` is never attempted. -/
theorem putRecord_get_failure_no_put (gz : List Nat → List Nat)
    (tr : Request → Except String JsVal) (o : PutRecordOptions) (msg : String)
    (hvalid : validateParams o (effectiveContentType o.contentType) = Except.ok ())
    (hbig : ¬ (gz (bodyBytes o.body)).length < SIGNED_URL_UPLOAD_MIN_BYTESIZE)
    (htr : tr (directUploadUrlRequest (jsStr o.baseUrl) (jsStr o.storeId)
        (jsStr o.key) (jsStr (effectiveContentType o.contentType))) =
      Except.error msg) :
    (putRecord gz tr o).1 = Except.error (PutError.transport msg) ∧
    (putRecord gz tr o).2.map Request.method = ["GET"] := by
  simp only [putRecord, hvalid, if_neg hbig]
  simp only [htr]
  simp [directUploadUrlRequest]

/-- Witness for C6: a failing transport on a threshold-sized compressed
body produces the transport error and a `GET`-only trace. -/
theorem putRecord_get_failure_no_put_witness :
    validateParams cOptsBig (effectiveContentType cOptsBig.contentType) =
      Except.ok () ∧
    (¬ (cGzBig (bodyBytes cOptsBig.body)).length < SIGNED_URL_UPLOAD_MIN_BYTESIZE) ∧
    cTrFail (directUploadUrlRequest (jsStr cOptsBig.baseUrl) (jsStr cOptsBig.storeId)
        (jsStr cOptsBig.key) (jsStr (effectiveContentType cOptsBig.contentType))) =
      Except.error "network error" ∧
    (putRecord cGzBig cTrFail cOptsBig).1 =
      Except.error (PutError.transport "network error") ∧
    (putRecord cGzBig cTrFail cOptsBig).2.map Request.method = ["GET"] := by
  have hbig : ¬ (cGzBig (bodyBytes cOptsBig.body)).length <
      SIGNED_URL_UPLOAD_MIN_BYTESIZE := by
    rw [show cGzBig (bodyBytes cOptsBig.body) = List.replicate (1024 * 256) 0 from rfl,
      List.length_replicate]
    decide
  exact ⟨rfl, hbig, rfl,
    (putRecord_get_failure_no_put cGzBig cTrFail cOptsBig "network error"
      rfl hbig rfl).1,
    (putRecord_get_failure_no_put cGzBig cTrFail cOptsBig "network error"
      rfl hbig rfl).2⟩

/-- C7: on the large-body path with a well-formed signed-url envelope, the
trace is the `GET` followed by a `PUT` that is the small-body request
(`recordPutRequest`, same compressed body, same headers including the
`Content-Type` and `Content-Encoding: gzip`, same method, same `json`
flag) with only its `url` field replaced by the obtained signed url. -/
theorem putRecord_signed_put_identical_except_url (gz : List Nat → List Nat)
    (tr : Request → Except String JsVal) (o : PutRecordOptions) (u : String)
    (hvalid : validateParams o (effectiveContentType o.contentType) = Except.ok ())
    (hbig : ¬ (gz (bodyBytes o.body)).length < SIGNED_URL_UPLOAD_MIN_BYTESIZE)
    (hresp : tr (directUploadUrlRequest (jsStr o.baseUrl) (jsStr o.storeId)
        (jsStr o.key) (jsStr (effectiveContentType o.contentType))) =
      Except.ok (JsVal.obj [("data", JsVal.obj [("signedUrl", JsVal.str u)])])) :
    (putRecord gz tr o).2 =
      [directUploadUrlRequest (jsStr o.baseUrl) (jsStr o.storeId) (jsStr o.key)
         (jsStr (effectiveContentType o.contentType)),
       { recordPutRequest (jsStr o.baseUrl) (jsStr o.storeId) (jsStr o.key)
           (jsStr (effectiveContentType o.contentType)) (gz (bodyBytes o.body)) with
         url := JsVal.str u }] := by
  simp only [putRecord, hvalid, if_neg hbig]
  simp only [hresp]
  have hdata : jsAccess (JsVal.obj [("data", JsVal.obj [("signedUrl", JsVal.str u)])])
      "data" = Except.ok (JsVal.obj [("signedUrl", JsVal.str u)]) := rfl
  have hsig : jsAccess (JsVal.obj [("signedUrl", JsVal.str u)]) "signedUrl" =
      Except.ok (JsVal.str u) := rfl
  simp only [hdata, hsig]

/-- Witness for C7: a threshold-sized compressed body with a well-formed
signed-url answer yields the `GET` and then the url-substituted `PUT`. -/
theorem putRecord_signed_put_identical_except_url_witness :
    validateParams cOptsBig (effectiveContentType cOptsBig.contentType) =
      Except.ok () ∧
    (¬ (cGzBig (bodyBytes cOptsBig.body)).length < SIGNED_URL_UPLOAD_MIN_BYTESIZE) ∧
    cTrGood (directUploadUrlRequest (jsStr cOptsBig.baseUrl) (jsStr cOptsBig.storeId)
        (jsStr cOptsBig.key) (jsStr (effectiveContentType cOptsBig.contentType))) =
      Except.ok (JsVal.obj [("data",
        JsVal.obj [("signedUrl", JsVal.str "https://s3.example/upload")])]) ∧
    (putRecord cGzBig cTrGood cOptsBig).2 =
      [directUploadUrlRequest (jsStr cOptsBig.baseUrl) (jsStr cOptsBig.storeId)
         (jsStr cOptsBig.key) (jsStr (effectiveContentType cOptsBig.contentType)),
       { recordPutRequest (jsStr cOptsBig.baseUrl) (jsStr cOptsBig.storeId)
           (jsStr cOptsBig.key) (jsStr (effectiveContentType cOptsBig.contentType))
           (cGzBig (bodyBytes cOptsBig.body)) with
         url := JsVal.str "https://s3.example/upload" }] := by
  have hbig : ¬ (cGzBig (bodyBytes cOptsBig.body)).length <
      SIGNED_URL_UPLOAD_MIN_BYTESIZE := by
    rw [show cGzBig (bodyBytes cOptsBig.body) = List.replicate (1024 * 256) 0 from rfl,
      List.length_replicate]
    decide
  exact ⟨rfl, hbig, rfl,
    putRecord_signed_put_identical_except_url cGzBig cTrGood cOptsBig
      "https://s3.example/upload" rfl hbig rfl⟩

/-- Counterexample to C3 as stated: a large-body call whose signed-url
`GET` succeeds with the envelope `\x7b data: \x7b \x7d \x7d` — whose `data` object
lacks the `signedUrl` field — still issues a second `PUT`: reading
`response.data.signedUrl` yields JavaScript `undefined` without throwing,
and the code proceeds to issue the `PUT` with `url` set to that
`undefined` value. -/
theorem putRecord_missing_signedUrl_second_put_issued :
    cTrNoSigned (directUploadUrlRequest (jsStr cOptsBig.baseUrl)
        (jsStr cOptsBig.storeId) (jsStr cOptsBig.key)
        (jsStr (effectiveContentType cOptsBig.contentType))) =
      Except.ok (JsVal.obj [("data", JsVal.obj [])]) ∧
    (putRecord cGzBig cTrNoSigned cOptsBig).2.map Request.method = ["GET", "PUT"] ∧
    (putRecord cGzBig cTrNoSigned cOptsBig).2.map Request.url =
      [(directUploadUrlRequest "https://api.example" "store1" "big"
          "text/plain; charset=utf-8").url,
       JsVal.undef] := by
  have hval : validateParams cOptsBig (effectiveContentType cOptsBig.contentType) =
      Except.ok () := rfl
  have hbig : ¬ (cGzBig (bodyBytes cOptsBig.body)).length <
      SIGNED_URL_UPLOAD_MIN_BYTESIZE := by
    rw [show cGzBig (bodyBytes cOptsBig.body) = List.replicate (1024 * 256) 0 from rfl,
      List.length_replicate]
    decide
  have htr : cTrNoSigned (directUploadUrlRequest (jsStr cOptsBig.baseUrl)
      (jsStr cOptsBig.storeId) (jsStr cOptsBig.key)
      (jsStr (effectiveContentType cOptsBig.contentType))) =
      Except.ok (JsVal.obj [("data", JsVal.obj [])]) := rfl
  have hdata : jsAccess (JsVal.obj [("data", JsVal.obj [])]) "data" =
      Except.ok (JsVal.obj []) := rfl
  have hsig : jsAccess (JsVal.obj []) "signedUrl" = Except.ok JsVal.undef := rfl
  refine ⟨rfl, ?_, ?_⟩
  · simp only [putRecord, hval, if_neg hbig]
    simp only [htr]
    simp only [hdata, hsig]
    simp [directUploadUrlRequest, recordPutRequest]
  · simp only [putRecord, hval, if_neg hbig]
    simp only [htr]
    simp only [hdata, hsig]
    simp [directUploadUrlRequest, recordPutRequest, cOptsBig, jsStr, effectiveContentType]

/-- C3 amended: on the large-body path, when the signed-url `GET` succeeds
but its JSON envelope has no `data` field at all, reading
`response.data.signedUrl` throws (`TypeError`), the call fails and no
second `PUT` is issued; only then — a `data` object merely lacking
`signedUrl` instead leads to a second `PUT` whose `url` is `undefined`
(see the counterexample). -/
theorem putRecord_missing_data_no_put (gz : List Nat → List Nat)
    (tr : Request → Except String JsVal) (o : PutRecordOptions)
    (fields : List (String × JsVal))
    (hvalid : validateParams o (effectiveContentType o.contentType) = Except.ok ())
    (hbig : ¬ (gz (bodyBytes o.body)).length < SIGNED_URL_UPLOAD_MIN_BYTESIZE)
    (htr : tr (directUploadUrlRequest (jsStr o.baseUrl) (jsStr o.storeId)
        (jsStr o.key) (jsStr (effectiveContentType o.contentType))) =
      Except.ok (JsVal.obj fields))
    (hnodata : fields.lookup "data" = none) :
    (putRecord gz tr o).1 = Except.error PutError.typeError ∧
    (putRecord gz tr o).2.map Request.method = ["GET"] := by
  have hdata : jsAccess (JsVal.obj fields) "data" = Except.ok JsVal.undef := by
    simp [jsAccess, hnodata]
  have hsig : jsAccess JsVal.undef "signedUrl" =
      Except.error PutError.typeError := rfl
  simp only [putRecord, hvalid, if_neg hbig]
  simp only [htr]
  simp only [hdata, hsig]
  simp [directUploadUrlRequest]

/-- Witness for the amended C3: an envelope with no `data` field fails the
call with a `TypeError` and a `GET`-only trace. -/
theorem putRecord_missing_data_no_put_witness :
    validateParams cOptsBig (effectiveContentType cOptsBig.contentType) =
      Except.ok () ∧
    (¬ (cGzBig (bodyBytes cOptsBig.body)).length < SIGNED_URL_UPLOAD_MIN_BYTESIZE) ∧
    cTrNoData (directUploadUrlRequest (jsStr cOptsBig.baseUrl)
        (jsStr cOptsBig.storeId) (jsStr cOptsBig.key)
        (jsStr (effectiveContentType cOptsBig.contentType))) =
      Except.ok (JsVal.obj [("ok", JsVal.bool true)]) ∧
    ([("ok", JsVal.bool true)] : List (String × JsVal)).lookup "data" = none ∧
    (putRecord cGzBig cTrNoData cOptsBig).1 = Except.error PutError.typeError ∧
    (putRecord cGzBig cTrNoData cOptsBig).2.map Request.method = ["GET"] := by
  have hbig : ¬ (cGzBig (bodyBytes cOptsBig.body)).length <
      SIGNED_URL_UPLOAD_MIN_BYTESIZE := by
    rw [show cGzBig (bodyBytes cOptsBig.body) = List.replicate (1024 * 256) 0 from rfl,
      List.length_replicate]
    decide
  exact ⟨rfl, hbig, rfl, rfl,
    (putRecord_missing_data_no_put cGzBig cTrNoData cOptsBig
      [("ok", JsVal.bool true)] rfl hbig rfl rfl).1,
    (putRecord_missing_data_no_put cGzBig cTrNoData cOptsBig
      [("ok", JsVal.bool true)] rfl hbig rfl rfl).2⟩

/-- Counterexample to C10 as stated: against the spec-modelled validator
(which requires a non-empty `contentType`, per the spec's precondition
"if given, non-empty string"), a call passing the empty string as
`contentType` does not send it verbatim: it fails validation with the
`contentType` invalid-parameter error, issuing no request. -/
theorem putRecord_empty_content_type_rejected :
    putRecord cGzId cTrNull (PutRecordOptions.mk (JsVal.str "https://api.example")
        (JsVal.str "store1") (JsVal.str "foo") (JsVal.buf [98]) (JsVal.str "")) =
      (Except.error (PutError.invalidParameter "contentType"), []) := rfl

/-- C10 amended: the default is applied only when `contentType` is
strictly absent (`undefined`); an explicitly passed `null` stays `null`
and an explicitly passed empty string stays empty, and both then fail the
`contentType` validation (per the spec-modelled non-emptiness check)
before any compression or network call. -/
theorem putRecord_content_type_null_or_empty (gz : List Nat → List Nat)
    (tr : Request → Except String JsVal) (o : PutRecordOptions) (bu si k : String)
    (hb : o.baseUrl = JsVal.str bu) (hbne : bu.isEmpty = false)
    (hs : o.storeId = JsVal.str si) (hsne : si.isEmpty = false)
    (hk : o.key = JsVal.str k) (hkne : k.isEmpty = false)
    (hct : o.contentType = JsVal.null ∨ o.contentType = JsVal.str "") :
    putRecord gz tr o = (Except.error (PutError.invalidParameter "contentType"), []) ∧
    effectiveContentType JsVal.undef = JsVal.str "text/plain; charset=utf-8" ∧
    effectiveContentType JsVal.null = JsVal.null := by
  have h1 : checkParamOrThrow o.baseUrl "baseUrl" ParamType.string = Except.ok () := by
    rw [hb]
    simp [checkParamOrThrow, hbne]
  have h2 : checkParamOrThrow o.storeId "storeId" ParamType.string = Except.ok () := by
    rw [hs]
    simp [checkParamOrThrow, hsne]
  have h3 : checkParamOrThrow o.key "key" ParamType.string = Except.ok () := by
    rw [hk]
    simp [checkParamOrThrow, hkne]
  have hc : checkParamOrThrow (effectiveContentType o.contentType) "contentType"
      ParamType.string = Except.error (PutError.invalidParameter "contentType") := by
    rcases hct with h | h <;> rw [h] <;> rfl
  have hval : validateParams o (effectiveContentType o.contentType) =
      Except.error (PutError.invalidParameter "contentType") := by
    unfold validateParams
    rw [h1, h2, h3]
    show (checkParamOrThrow (effectiveContentType o.contentType) "contentType"
      ParamType.string).bind _ = _
    rw [hc]
    rfl
  refine ⟨?_, rfl, rfl⟩
  simp [putRecord, hval]

/-- Witness for the amended C10: a call with `contentType: null` fails
with the `contentType` invalid-parameter error and no requests. -/
theorem putRecord_content_type_null_or_empty_witness :
    (PutRecordOptions.mk (JsVal.str "https://api.example") (JsVal.str "store1")
        (JsVal.str "foo") (JsVal.buf [98]) JsVal.null).baseUrl =
      JsVal.str "https://api.example" ∧
    "https://api.example".isEmpty = false ∧
    (putRecord cGzId cTrNull (PutRecordOptions.mk (JsVal.str "https://api.example")
        (JsVal.str "store1") (JsVal.str "foo") (JsVal.buf [98]) JsVal.null) =
      (Except.error (PutError.invalidParameter "contentType"), []) ∧
     effectiveContentType JsVal.undef = JsVal.str "text/plain; charset=utf-8" ∧
     effectiveContentType JsVal.null = JsVal.null) :=
  ⟨rfl, rfl,
   putRecord_content_type_null_or_empty cGzId cTrNull _
     "https://api.example" "store1" "foo" rfl rfl rfl rfl rfl rfl (Or.inl rfl)⟩

end Apify
